import Mathlib

/-!
Verification of the vrGrasp-prediction feature-extraction pipeline.

The Python sources (`preprocessing.py`, `featureExtraction.py`) operate on
pandas data frames holding per-frame 3-D hand-joint positions.  We embed the
relevant data model and operations shallowly: a data frame of transform-log
rows becomes a `List Sample`, timestamps and coordinates are rationals
(exact stand-ins for the floating-point values), the Euclidean norm is
`Real.sqrt` applied to the rational squared norm, and operations that can
raise a Python exception (numpy broadcasting errors, `pd.concat` on an empty
list, `pd.DataFrame` with mismatched column lengths, a missing event-log
file) return `Option`/`Except`.
-/

namespace VrGrasp

/-! ## Data model -/

/-- A 3-D position, componentwise rational. -/
abbrev V3 := ℚ × ℚ × ℚ

/-- Componentwise subtraction of 3-D positions. -/
def vsub (a b : V3) : V3 := (a.1 - b.1, a.2.1 - b.2.1, a.2.2 - b.2.2)

/-- Squared Euclidean norm of a 3-D vector (rational, exact). -/
def sqNorm (v : V3) : ℚ := v.1 * v.1 + v.2.1 * v.2.1 + v.2.2 * v.2.2

/-- Euclidean norm of a 3-D vector, as computed by `np.linalg.norm(., axis=1)`. -/
noncomputable def norm3 (v : V3) : ℝ := Real.sqrt ((sqNorm v : ℚ) : ℝ)

/-- One row of a transform log: columns Timestamp, Name, PosX, PosY, PosZ. -/
structure Sample where
  timestamp : ℚ
  name : String
  pos : V3
deriving DecidableEq, Inhabited

/-- One row of an event log: columns Name, StartTime, EndTime. -/
structure EventRow where
  name : String
  startTime : ℚ
  endTime : ℚ
deriving DecidableEq

/-! ## String helpers

Python string operations modelled character-wise over `String.data`, so that
they evaluate by kernel reduction. -/

/-- Model of Python str.strip: drop leading and trailing whitespace. -/
def strStrip (s : String) : String :=
  ⟨((s.data.dropWhile Char.isWhitespace).reverse.dropWhile Char.isWhitespace).reverse⟩

/-- Model of Python str.endswith(suf). -/
def strEndsWith (suf s : String) : Bool := suf.data.isSuffixOf s.data

/-- Helper for substring containment: does pat occur starting at some position of l. -/
def containsSubAux (pat : List Char) : List Char → Bool
  | [] => pat.isEmpty
  | c :: rest => pat.isPrefixOf (c :: rest) || containsSubAux pat rest

/-- Model of Python substring containment (pat in s). -/
def containsSub (pat s : String) : Bool := containsSubAux pat.data s.data

/-- Helper for splitting a character list at underscores (Python str.split). -/
def splitUnderscoreAux : List Char → List Char → List (List Char)
  | [], cur => [cur.reverse]
  | c :: rest, cur =>
    if c = '_' then cur.reverse :: splitUnderscoreAux rest []
    else splitUnderscoreAux rest (c :: cur)

/-- Model of Python filename.split with separator underscore. -/
def splitUnderscore (s : String) : List String :=
  (splitUnderscoreAux s.data []).map (fun l => (⟨l⟩ : String))

/-! ## preprocessing.py -/

/-- A user folder: the file names `os.listdir` would return, plus the parsed
contents each file would yield when read as an event log or a transform log
(`pd.read_csv` is external I/O glue). -/
structure UserFolder where
  fileNames : List String
  eventRows : String → List EventRow
  samples : String → List Sample

/-- File test from preprocessing.py line 18: name contains "EventLogFile" and
ends with ".csv". -/
def isEventFile (f : String) : Bool :=
  containsSub "EventLogFile" f && strEndsWith ".csv" f

/-- Event-row filter from preprocessing.py line 26: re.match of config
followed by one or more digits, i.e. the name starts with "config" and the
next character is a digit. -/
def matchesConfigPat (s : String) : Bool :=
  "config".data.isPrefixOf s.data &&
    (match s.data.drop 6 with
     | c :: _ => c.isDigit
     | [] => false)

/-- Transform-file pattern from preprocessing.py line 35: re.match of
anything followed by underscore, the config name and ".csv" (not anchored at
the end), i.e. the file name contains that literal substring. -/
def matchesTransformPat (cfg f : String) : Bool :=
  containsSub ("_" ++ cfg ++ ".csv") f

/-- Timestamp filter from preprocessing.py lines 46-49: keep rows with
start_time <= Timestamp <= end_time, where end_time already includes the
buffer. -/
def cropStream (samples : List Sample) (startTime endTime buffer : ℚ) : List Sample :=
  samples.filter (fun s =>
    decide (startTime ≤ s.timestamp) && decide (s.timestamp ≤ endTime + buffer))

/-- The per-config-row loop of extract_config_segments (preprocessing.py
lines 29-54): returns the cropped streams saved (file name and rows, in loop
order) and the warnings printed. -/
def segmentLoop (folder : UserFolder) (buffer : ℚ) :
    List EventRow → List (String × List Sample) × List String
  | [] => ([], [])
  | r :: rest =>
    let acc := segmentLoop folder buffer rest
    match folder.fileNames.find? (matchesTransformPat r.name) with
    | none =>
      (acc.1, ("Warning: Transform log for " ++ r.name ++ " not found.") :: acc.2)
    | some tf =>
      ((tf, cropStream (folder.samples tf) r.startTime r.endTime buffer) :: acc.1,
       acc.2)

/-- Model of extract_config_segments (preprocessing.py lines 5-54).  A
missing event-log file raises FileNotFoundError, modelled as `Except.error`;
otherwise it returns the saved cropped streams and the warnings. -/
def extract_config_segments (folder : UserFolder) (buffer : ℚ) :
    Except String (List (String × List Sample) × List String) :=
  match folder.fileNames.find? isEventFile with
  | none => .error "Event log file not found in user folder."
  | some ef =>
    .ok (segmentLoop folder buffer
      ((folder.eventRows ef).filter (fun r => matchesConfigPat r.name)))

/-! ## featureExtraction.py: grasp aperture -/

/-- Row selection from featureExtraction.py lines 18-19: the sub-dataframe of
rows whose Name equals the given joint, in original order. -/
def jointRows (df : List Sample) (j : String) : List Sample :=
  df.filter (fun s => s.name == j)

/-- Numpy broadcasting semantics of positions1 - positions2 for shapes (n,3)
and (m,3): elementwise when n = m, the single row broadcast when n = 1 or
m = 1, and a ValueError (none) otherwise. -/
def broadcastSub (l1 l2 : List V3) : Option (List V3) :=
  if l1.length = l2.length then some (List.zipWith vsub l1 l2)
  else if l1.length = 1 then some (l2.map (fun p => vsub l1.headI p))
  else if l2.length = 1 then some (l1.map (fun p => vsub p l2.headI))
  else none

/-- Model of extract_grasp_aperture (featureExtraction.py lines 6-32).
Timestamps are taken from joint1 only; `pd.DataFrame` raises (none) when the
Timestamp and Aperture columns have different lengths. -/
noncomputable def extract_grasp_aperture (df : List Sample) (j1 j2 : String) :
    Option (List (ℚ × ℝ)) :=
  let l1 := jointRows df j1
  let l2 := jointRows df j2
  let ts := l1.map (·.timestamp)
  match broadcastSub (l1.map (·.pos)) (l2.map (·.pos)) with
  | none => none
  | some diffs =>
    let aps := diffs.map norm3
    if ts.length = aps.length then some (List.zip ts aps) else none

/-- Model of parse_object_name (featureExtraction.py lines 68-75). -/
def parse_object_name (filename : String) : String :=
  let parts := splitUnderscore filename
  if 4 ≤ parts.length then parts.getD 2 "" else "Unknown"

/-- One row of the aggregated aperture table: Timestamp, Aperture, Object,
ConfigFile. -/
structure LabeledRow where
  timestamp : ℚ
  aperture : ℝ
  object : String
  configFile : String

/-- The per-file loop of load_and_extract_apertures (featureExtraction.py
lines 50-64): extract apertures for each csv, label with object and file
name; an exception in any extraction propagates (none). -/
noncomputable def aggregateFiles (j1 j2 : String) :
    List (String × List Sample) → Option (List LabeledRow)
  | [] => some []
  | (fname, data) :: rest =>
    match extract_grasp_aperture data j1 j2, aggregateFiles j1 j2 rest with
    | some rows, some acc =>
      some (rows.map (fun r => ⟨r.1, r.2, parse_object_name fname, fname⟩) ++ acc)
    | _, _ => none

/-- Model of load_and_extract_apertures (featureExtraction.py lines 34-66).
The folder is the `os.listdir` listing with each file's parsed rows; names
not ending in ".csv" are skipped; `pd.concat` on an empty list raises
(none). -/
noncomputable def load_and_extract_apertures (folder : List (String × List Sample))
    (j1 j2 : String) : Option (List LabeledRow) :=
  let csvs := folder.filter (fun f => strEndsWith ".csv" f.1)
  if csvs.isEmpty then none else aggregateFiles j1 j2 csvs

/-! ## featureExtraction.py: polygon features -/

/-- Axis label of one feature component. -/
inductive Axis
  | x
  | y
  | z
deriving DecidableEq

/-- Key of one feature component: the f-string "{group}_edge{i}_{axis}"
modelled as the (group, edge index, axis) triple it interpolates. -/
abbrev CompKey := String × ℕ × Axis

/-- One output row of extract_grasp_polygons_over_time: the timestamp plus
the named feature components, in insertion order. -/
structure FeatureRow where
  timestamp : ℚ
  comps : List (CompKey × ℚ)
deriving DecidableEq

/-- The tip polygon group (featureExtraction.py lines 91-93). -/
def tipJoints : List String :=
  ["R_ThumbTip", "R_IndexTip", "R_MiddleTip", "R_RingTip", "R_LittleTip"]

/-- The intermediate polygon group (featureExtraction.py lines 94-97). -/
def intermediateJoints : List String :=
  ["R_ThumbDistal", "R_IndexIntermediate", "R_MiddleIntermediate",
   "R_RingIntermediate", "R_LittleIntermediate"]

/-- The polygons dict (featureExtraction.py lines 90-98), in Python dict
insertion order: tip first, then intermediate. -/
def polygons : List (String × List String) :=
  [("tip", tipJoints), ("intermediate", intermediateJoints)]

/-- Position lookup in a frame indexed by Name (featureExtraction.py lines
104, 111, 114): none when the joint is absent from the frame. -/
def lookupJoint (frame : List Sample) (j : String) : Option V3 :=
  (frame.find? (fun s => s.name == j)).map (·.pos)

/-- The inner joint loop (featureExtraction.py lines 109-115): collect the
group's points in declared order, failing on the first missing joint. -/
def groupPoints (frame : List Sample) : List String → Option (List V3)
  | [] => some []
  | j :: rest =>
    match lookupJoint frame j with
    | none => none
    | some p =>
      match groupPoints frame rest with
      | none => none
      | some ps => some (p :: ps)

/-- Edge vectors of the closed polygon (featureExtraction.py lines 120-123):
append the first point after the last, then take consecutive differences. -/
def edgeVectors (pts : List V3) : List V3 :=
  match pts with
  | [] => []
  | p :: _ => List.zipWith vsub (pts.drop 1 ++ [p]) pts

/-- The component-emission loop (featureExtraction.py lines 125-128): one
(key, value) pair per edge index and axis, in x, y, z order. -/
def edgeComps (g : String) (pts : List V3) : List (CompKey × ℚ) :=
  ((edgeVectors pts).enum.map (fun ie =>
    [((g, ie.1, Axis.x), ie.2.1), ((g, ie.1, Axis.y), ie.2.2.1),
     ((g, ie.1, Axis.z), ie.2.2.2)])).flatten

/-- The group loop (featureExtraction.py lines 108-118): process groups in
order; on the first incomplete group, stop and discard it and all later
groups (components of earlier complete groups are kept). -/
def processPolys (frame : List Sample) : List (String × List String) → List (CompKey × ℚ)
  | [] => []
  | (g, joints) :: rest =>
    match groupPoints frame joints with
    | none => []
    | some pts => edgeComps g pts ++ processPolys frame rest

/-- Name stripping (featureExtraction.py line 88). -/
def strippedDf (df : List Sample) : List Sample :=
  df.map (fun s => { s with name := strStrip s.name })

/-- The group of rows sharing one timestamp, in original order. -/
def frameAt (df : List Sample) (t : ℚ) : List Sample :=
  df.filter (fun s => s.timestamp == t)

/-- The distinct timestamps in ascending order: pandas groupby sorts its
keys. -/
def sortKeys (l : List ℚ) : List ℚ :=
  l.dedup.insertionSort (· ≤ ·)

/-- Model of df.groupby of Timestamp (featureExtraction.py line 100): the
distinct timestamps in ascending order, each with its frame. -/
def groupByTimestamp (df : List Sample) : List (ℚ × List Sample) :=
  (sortKeys (df.map (·.timestamp))).map (fun t => (t, frameAt df t))

/-- Model of extract_grasp_polygons_over_time (featureExtraction.py lines
77-133): one row per timestamp whose component list is non-empty
(the len(feature_row) > 1 test on line 130). -/
def extract_grasp_polygons_over_time (df : List Sample) : List FeatureRow :=
  let df' := strippedDf df
  (groupByTimestamp df').filterMap (fun p =>
    let comps := processPolys p.2 polygons
    if comps.isEmpty then none else some ⟨p.1, comps⟩)

/-! ## Concrete streams used in witnesses and counterexamples -/

/-- Helper to build a transform-log row. -/
def mkSample (t : ℚ) (n : String) (x y z : ℚ) : Sample := ⟨t, n, (x, y, z)⟩

/-- Scenario A of the spec: thumb tip at the origin and index tip at
(3, 4, 0), both at timestamp 1. -/
def scenarioA : List Sample :=
  [mkSample 1 "R_ThumbTip" 0 0 0, mkSample 1 "R_IndexTip" 3 4 0]

/-- A stream with two thumb-tip samples and three index-tip samples. -/
def mismatchedDf : List Sample :=
  [mkSample 1 "R_ThumbTip" 0 0 0, mkSample 2 "R_ThumbTip" 0 0 0,
   mkSample 1 "R_IndexTip" 3 4 0, mkSample 2 "R_IndexTip" 3 4 0,
   mkSample 3 "R_IndexTip" 3 4 0]

/-- A stream with two thumb-tip samples and a single index-tip sample. -/
def singleIndexDf : List Sample :=
  [mkSample 1 "R_ThumbTip" 0 0 0, mkSample 2 "R_ThumbTip" 1 0 0,
   mkSample 1 "R_IndexTip" 3 4 0]

/-! ## General list lemmas -/

lemma getD_zipWith {α β γ : Type} (f : α → β → γ) (d : γ) (da : α) (db : β) :
    ∀ (l1 : List α) (l2 : List β) (i : ℕ), i < l1.length → i < l2.length →
      (List.zipWith f l1 l2).getD i d = f (l1.getD i da) (l2.getD i db)
  | [], _, i, h1, _ => by simp at h1
  | _ :: _, [], i, _, h2 => by simp at h2
  | a :: l1, b :: l2, 0, _, _ => rfl
  | a :: l1, b :: l2, i + 1, h1, h2 => by
    simpa using getD_zipWith f d da db l1 l2 i (by simpa using h1) (by simpa using h2)

lemma mem_zipWith {α β γ : Type} {f : α → β → γ} {p : γ} :
    ∀ {l1 : List α} {l2 : List β}, p ∈ List.zipWith f l1 l2 →
      ∃ a b, a ∈ l1 ∧ b ∈ l2 ∧ p = f a b
  | [], _, h => by simp at h
  | _ :: _, [], h => by simp at h
  | a :: l1, b :: l2, h => by
    rcases List.mem_cons.mp h with h | h
    · exact ⟨a, b, by simp, by simp, h⟩
    · rcases mem_zipWith h with ⟨a1, b1, ha, hb, hp⟩
      exact ⟨a1, b1, List.mem_cons_of_mem _ ha, List.mem_cons_of_mem _ hb, hp⟩

/-! ## Aperture lemmas -/

lemma norm3_nonneg (v : V3) : 0 ≤ norm3 v := Real.sqrt_nonneg _

lemma sqNorm_nonneg (v : V3) : 0 ≤ sqNorm v := by
  unfold sqNorm
  nlinarith [mul_self_nonneg v.1, mul_self_nonneg v.2.1, mul_self_nonneg v.2.2]

lemma norm3_vsub_comm (a b : V3) : norm3 (vsub a b) = norm3 (vsub b a) := by
  unfold norm3 sqNorm vsub
  ring_nf

lemma norm3_vsub_eq_zero_iff (a b : V3) : norm3 (vsub a b) = 0 ↔ a = b := by
  unfold norm3
  rw [Real.sqrt_eq_zero']
  constructor
  · intro h
    have h0 : sqNorm (vsub a b) ≤ 0 := by exact_mod_cast h
    have h1 : sqNorm (vsub a b) = 0 := le_antisymm h0 (sqNorm_nonneg _)
    obtain ⟨a1, a2, a3⟩ := a
    obtain ⟨b1, b2, b3⟩ := b
    unfold sqNorm vsub at h1
    dsimp only at h1
    simp only [Prod.mk.injEq]
    refine ⟨?_, ?_, ?_⟩ <;>
      nlinarith [mul_self_nonneg (a1 - b1), mul_self_nonneg (a2 - b2),
        mul_self_nonneg (a3 - b3)]
  · intro h
    subst h
    unfold sqNorm vsub
    push_cast
    ring_nf
    rfl

/-- Pairing the aligned columns: zipping joint1's timestamps with the norms
of the broadcast differences is the positional pairing of the two joint
streams. -/
lemma zip_map_aperture : ∀ (l1 l2 : List Sample),
    List.zip (l1.map (·.timestamp))
        ((List.zipWith vsub (l1.map (·.pos)) (l2.map (·.pos))).map norm3)
      = List.zipWith (fun a b => (a.timestamp, norm3 (vsub a.pos b.pos))) l1 l2
  | [], _ => by simp
  | _ :: _, [] => by simp
  | a :: l1, b :: l2 => by
    simpa [List.zip] using zip_map_aperture l1 l2

/-- Characterization of extract_grasp_aperture when the two joints have the
same number of samples: the i-th rows are paired positionally. -/
lemma extract_grasp_aperture_of_length_eq (df : List Sample) (j1 j2 : String)
    (h : (jointRows df j1).length = (jointRows df j2).length) :
    extract_grasp_aperture df j1 j2 =
      some (List.zipWith (fun a b => (a.timestamp, norm3 (vsub a.pos b.pos)))
        (jointRows df j1) (jointRows df j2)) := by
  have h1 : (List.map (fun x => x.pos) (jointRows df j1)).length
      = (List.map (fun x => x.pos) (jointRows df j2)).length := by
    simpa using h
  unfold extract_grasp_aperture broadcastSub
  dsimp only
  rw [if_pos h1]
  dsimp only
  rw [if_pos (by simp [List.length_zipWith, h])]
  exact congrArg some (zip_map_aperture _ _)

/-- C3 counterexample: with two R_ThumbTip samples and three R_IndexTip
samples the call does not return normally (numpy raises a broadcasting
ValueError), instead of returning min(2, 3) = 2 rows as claimed. -/
theorem aperture_mismatch_counterexample :
    extract_grasp_aperture mismatchedDf "R_ThumbTip" "R_IndexTip" = none ∧
    (jointRows mismatchedDf "R_ThumbTip").length = 2 ∧
    (jointRows mismatchedDf "R_IndexTip").length = 3 :=
  ⟨rfl, by decide, by decide⟩

/-- C3 (amended): extract_grasp_aperture returns normally iff the two joint
sample counts are equal or the second joint has exactly one sample (numpy
broadcasting); in either case the number of rows equals the count of the
first joint, not the minimum of the two counts. -/
theorem aperture_mismatch_policy (df : List Sample) (j1 j2 : String) :
    ((extract_grasp_aperture df j1 j2).isSome = true ↔
      ((jointRows df j1).length = (jointRows df j2).length ∨
        (jointRows df j2).length = 1)) ∧
    (∀ rows, extract_grasp_aperture df j1 j2 = some rows →
      rows.length = (jointRows df j1).length) := by
  unfold extract_grasp_aperture broadcastSub
  dsimp only
  simp only [List.length_map]
  by_cases hnm : (jointRows df j1).length = (jointRows df j2).length
  · rw [if_pos hnm]
    dsimp only
    simp only [List.length_map, List.length_zipWith]
    rw [if_pos (by omega)]
    refine ⟨by simp [hnm], ?_⟩
    intro rows hr
    injection hr with hr
    subst hr
    simp only [List.length_zip, List.length_map, List.length_zipWith]
    omega
  · rw [if_neg hnm]
    by_cases hn1 : (jointRows df j1).length = 1
    · rw [if_pos hn1]
      dsimp only
      simp only [List.length_map]
      rw [if_neg (by omega)]
      constructor
      · simp only [Option.isSome_none, Bool.false_eq_true, false_iff]
        push_neg
        exact ⟨hnm, fun hm1 => hnm (hn1.trans hm1.symm)⟩
      · intro rows hr
        exact absurd hr (by simp)
    · rw [if_neg hn1]
      by_cases hm1 : (jointRows df j2).length = 1
      · rw [if_pos hm1]
        dsimp only
        simp only [List.length_map, if_true]
        refine ⟨by simp [hm1], ?_⟩
        intro rows hr
        injection hr with hr
        subst hr
        simp
      · rw [if_neg hm1]
        refine ⟨by simp [hnm, hm1], ?_⟩
        intro rows hr
        exact absurd hr (by simp)

/-- C3 witness: two thumb samples against a single index sample return
normally with two rows (broadcasting), the first joint's count. -/
theorem aperture_mismatch_policy_witness :
    ((jointRows singleIndexDf "R_ThumbTip").length = 2 ∧
      (jointRows singleIndexDf "R_IndexTip").length = 1) ∧
    (extract_grasp_aperture singleIndexDf "R_ThumbTip" "R_IndexTip").isSome = true ∧
    (∀ rows, extract_grasp_aperture singleIndexDf "R_ThumbTip" "R_IndexTip" = some rows →
      rows.length = 2) := by
  refine ⟨by decide, ?_, ?_⟩
  · exact (aperture_mismatch_policy singleIndexDf "R_ThumbTip" "R_IndexTip").1.mpr
      (Or.inr (by decide))
  · intro rows hr
    have hlen :=
      (aperture_mismatch_policy singleIndexDf "R_ThumbTip" "R_IndexTip").2 rows hr
    rw [hlen]
    decide

/-- C6: when the two joints have equally many samples, the output pairs the
i-th sample of joint1 with the i-th sample of joint2 positionally (the
timestamp column comes from joint1), and the i-th Aperture is the Euclidean
norm of the positional difference of the i-th pair. -/
theorem aperture_euclidean_pairing (df : List Sample) (j1 j2 : String)
    (h : (jointRows df j1).length = (jointRows df j2).length) :
    extract_grasp_aperture df j1 j2 =
      some (List.zipWith (fun a b => (a.timestamp, norm3 (vsub a.pos b.pos)))
        (jointRows df j1) (jointRows df j2)) ∧
    (∀ rows, extract_grasp_aperture df j1 j2 = some rows →
      ∀ i, i < rows.length →
        rows.getD i (0, 0) =
          (((jointRows df j1).getD i default).timestamp,
            norm3 (vsub ((jointRows df j1).getD i default).pos
              ((jointRows df j2).getD i default).pos))) := by
  have hchar := extract_grasp_aperture_of_length_eq df j1 j2 h
  refine ⟨hchar, ?_⟩
  intro rows hr i hi
  rw [hchar] at hr
  injection hr with hr
  subst hr
  rw [List.length_zipWith] at hi
  exact getD_zipWith _ _ default default _ _ i (by omega) (by omega)

/-- C6 witness: Scenario A, thumb tip at the origin and index tip at
(3, 4, 0) at timestamp 1 give the single row (1, 5). -/
theorem aperture_euclidean_pairing_witness :
    (jointRows scenarioA "R_ThumbTip").length =
      (jointRows scenarioA "R_IndexTip").length ∧
    extract_grasp_aperture scenarioA "R_ThumbTip" "R_IndexTip" =
      some [(1, (5 : ℝ))] := by
  have h : (jointRows scenarioA "R_ThumbTip").length =
      (jointRows scenarioA "R_IndexTip").length := by decide
  refine ⟨h, ?_⟩
  rw [(aperture_euclidean_pairing scenarioA "R_ThumbTip" "R_IndexTip" h).1]
  have e1 : jointRows scenarioA "R_ThumbTip" = [mkSample 1 "R_ThumbTip" 0 0 0] := by
    decide
  have e2 : jointRows scenarioA "R_IndexTip" = [mkSample 1 "R_IndexTip" 3 4 0] := by
    decide
  rw [e1, e2]
  have h5 : norm3 (vsub (mkSample 1 "R_ThumbTip" 0 0 0).pos
      (mkSample 1 "R_IndexTip" 3 4 0).pos) = 5 := by
    unfold norm3 sqNorm vsub mkSample
    norm_num
    rw [show ((25 : ℝ)) = 5 ^ 2 by norm_num]
    exact Real.sqrt_sq (by norm_num)
  dsimp only [List.zipWith]
  rw [h5]
  rfl

/-- C7: with equal sample counts the aperture sequence is unchanged when the
joints are swapped, every aperture is non-negative, and the i-th aperture is
zero iff the i-th paired samples have the same position. -/
theorem aperture_symm_nonneg_zero (df : List Sample) (j1 j2 : String)
    (h : (jointRows df j1).length = (jointRows df j2).length) :
    (∃ r1 r2, extract_grasp_aperture df j1 j2 = some r1 ∧
      extract_grasp_aperture df j2 j1 = some r2 ∧
      r1.map Prod.snd = r2.map Prod.snd) ∧
    (∀ rows, extract_grasp_aperture df j1 j2 = some rows → ∀ p ∈ rows, 0 ≤ p.2) ∧
    (∀ rows, extract_grasp_aperture df j1 j2 = some rows →
      ∀ i, i < rows.length →
        ((rows.getD i (0, 0)).2 = 0 ↔
          ((jointRows df j1).getD i default).pos =
            ((jointRows df j2).getD i default).pos)) := by
  have hchar1 := extract_grasp_aperture_of_length_eq df j1 j2 h
  have hchar2 := extract_grasp_aperture_of_length_eq df j2 j1 h.symm
  refine ⟨⟨_, _, hchar1, hchar2, ?_⟩, ?_, ?_⟩
  · simp only [List.map_zipWith]
    rw [List.zipWith_comm (fun a b =>
      norm3 (vsub a.pos b.pos)) (jointRows df j2) (jointRows df j1)]
    congr 1
    funext a b
    exact norm3_vsub_comm _ _
  · intro rows hr p hp
    rw [hchar1] at hr
    injection hr with hr
    subst hr
    rcases mem_zipWith hp with ⟨a, b, _, _, hpab⟩
    rw [hpab]
    exact norm3_nonneg _
  · intro rows hr i hi
    rw [hchar1] at hr
    injection hr with hr
    subst hr
    rw [List.length_zipWith] at hi
    rw [getD_zipWith _ _ default default _ _ i (by omega) (by omega)]
    exact norm3_vsub_eq_zero_iff _ _

/-- C7 witness: instantiation of the symmetry, non-negativity and zero-iff
properties on Scenario A. -/
theorem aperture_symm_nonneg_zero_witness :
    (jointRows scenarioA "R_ThumbTip").length =
      (jointRows scenarioA "R_IndexTip").length ∧
    ((∃ r1 r2, extract_grasp_aperture scenarioA "R_ThumbTip" "R_IndexTip" = some r1 ∧
      extract_grasp_aperture scenarioA "R_IndexTip" "R_ThumbTip" = some r2 ∧
      r1.map Prod.snd = r2.map Prod.snd) ∧
    (∀ rows, extract_grasp_aperture scenarioA "R_ThumbTip" "R_IndexTip" = some rows →
      ∀ p ∈ rows, 0 ≤ p.2) ∧
    (∀ rows, extract_grasp_aperture scenarioA "R_ThumbTip" "R_IndexTip" = some rows →
      ∀ i, i < rows.length →
        ((rows.getD i (0, 0)).2 = 0 ↔
          ((jointRows scenarioA "R_ThumbTip").getD i default).pos =
            ((jointRows scenarioA "R_IndexTip").getD i default).pos))) :=
  ⟨by decide, aperture_symm_nonneg_zero scenarioA "R_ThumbTip" "R_IndexTip" (by decide)⟩

/-! ## Concrete polygon streams -/

/-- A frame at timestamp 0 with all ten polygon joints present. -/
def fullFrameDf : List Sample :=
  [mkSample 0 "R_ThumbTip" 0 0 0, mkSample 0 "R_IndexTip" 1 0 0,
   mkSample 0 "R_MiddleTip" 1 1 0, mkSample 0 "R_RingTip" 0 1 0,
   mkSample 0 "R_LittleTip" 0 0 1,
   mkSample 0 "R_ThumbDistal" 2 0 0, mkSample 0 "R_IndexIntermediate" 3 0 0,
   mkSample 0 "R_MiddleIntermediate" 3 1 0, mkSample 0 "R_RingIntermediate" 2 1 0,
   mkSample 0 "R_LittleIntermediate" 2 0 1]

/-- A frame at timestamp 0 with the tip group complete and the intermediate
group missing R_LittleIntermediate. -/
def tipOnlyDf : List Sample := fullFrameDf.take 9

/-- A frame at timestamp 0 with the intermediate group complete and the tip
group missing R_LittleTip. -/
def intermOnlyDf : List Sample := fullFrameDf.take 4 ++ fullFrameDf.drop 5

/-! ## Polygon lemmas -/

lemma groupPoints_eq_none (frame : List Sample) :
    ∀ joints : List String, (∃ j ∈ joints, lookupJoint frame j = none) →
      groupPoints frame joints = none
  | [], h => by simp at h
  | j :: rest, h => by
    rcases h with ⟨j0, hj0, hnone⟩
    rcases List.mem_cons.mp hj0 with rfl | hj0
    · simp [groupPoints, hnone]
    · unfold groupPoints
      rw [groupPoints_eq_none frame rest ⟨j0, hj0, hnone⟩]
      cases lookupJoint frame j <;> rfl

lemma groupPoints_length (frame : List Sample) :
    ∀ (joints : List String) (ps : List V3), groupPoints frame joints = some ps →
      ps.length = joints.length
  | [], ps, h => by
    unfold groupPoints at h
    injection h with h
    subst h
    rfl
  | j :: rest, ps, h => by
    unfold groupPoints at h
    cases hl : lookupJoint frame j with
    | none => rw [hl] at h; exact absurd h (by simp)
    | some p =>
      rw [hl] at h
      cases hg : groupPoints frame rest with
      | none => rw [hg] at h; exact absurd h (by simp)
      | some ps0 =>
        rw [hg] at h
        injection h with h
        subst h
        simpa using groupPoints_length frame rest ps0 hg

lemma lookup_mem_timestamps (df : List Sample) (t : ℚ) (j : String) (p : V3)
    (h : lookupJoint (frameAt df t) j = some p) : t ∈ df.map (·.timestamp) := by
  unfold lookupJoint at h
  cases hf : (frameAt df t).find? (fun s => s.name == j) with
  | none => rw [hf] at h; exact absurd h (by simp)
  | some s =>
    have hs : s ∈ frameAt df t := List.mem_of_find?_eq_some hf
    unfold frameAt at hs
    have := List.mem_filter.mp hs
    rcases this with ⟨hmem, heq⟩
    have ht : s.timestamp = t := by simpa using heq
    exact ht ▸ List.mem_map_of_mem (fun s => s.timestamp) hmem

lemma mem_sortKeys_iff (t : ℚ) (l : List ℚ) : t ∈ sortKeys l ↔ t ∈ l := by
  unfold sortKeys
  rw [List.mem_insertionSort, List.mem_dedup]

lemma sortKeys_sorted (l : List ℚ) : List.Sorted (· < ·) (sortKeys l) := by
  have h1 := List.sorted_insertionSort (· ≤ ·) l.dedup
  have h2 : (l.dedup.insertionSort (· ≤ ·)).Nodup :=
    ((List.perm_insertionSort (· ≤ ·) l.dedup).nodup_iff).mpr (List.nodup_dedup l)
  exact h1.lt_of_le h2

lemma edgeVectors_length (pts : List V3) : (edgeVectors pts).length = pts.length := by
  cases pts with
  | nil => rfl
  | cons p rest =>
    unfold edgeVectors
    simp [List.length_zipWith]

lemma vsub_eq_sub (a b : V3) : vsub a b = a - b := by
  obtain ⟨a1, a2, a3⟩ := a
  obtain ⟨b1, b2, b3⟩ := b
  simp [vsub, Prod.sub_def]

lemma sum_zipWith_vsub : ∀ l1 l2 : List V3, l1.length = l2.length →
    (List.zipWith vsub l1 l2).sum = l1.sum - l2.sum
  | [], [], _ => by simp
  | [], _ :: _, h => by simp at h
  | _ :: _, [], h => by simp at h
  | a :: l1, b :: l2, h => by
    simp only [List.zipWith_cons_cons, List.sum_cons, vsub_eq_sub]
    rw [sum_zipWith_vsub l1 l2 (by simpa using h)]
    abel

lemma edgeVectors_sum (pts : List V3) (h : pts ≠ []) :
    (edgeVectors pts).sum = 0 := by
  cases pts with
  | nil => exact absurd rfl h
  | cons p rest =>
    unfold edgeVectors
    rw [sum_zipWith_vsub _ _ (by simp)]
    simp only [List.drop_succ_cons, List.drop_zero, List.sum_append, List.sum_cons,
      List.sum_nil]
    abel

lemma tripleFlatten_length (g : String) :
    ∀ es : List (ℕ × V3),
      ((es.map (fun ie =>
        [((g, ie.1, Axis.x), ie.2.1), ((g, ie.1, Axis.y), ie.2.2.1),
         ((g, ie.1, Axis.z), ie.2.2.2)])).flatten).length = 3 * es.length
  | [] => rfl
  | e :: es => by
    simp only [List.map_cons, List.flatten_cons, List.length_append,
      List.length_cons, List.length_nil, tripleFlatten_length g es]
    omega

lemma edgeComps_length (g : String) (pts : List V3) :
    (edgeComps g pts).length = 3 * pts.length := by
  unfold edgeComps
  rw [tripleFlatten_length, List.enum_length, edgeVectors_length]

lemma edgeComps_group (g : String) (pts : List V3) :
    ∀ c ∈ edgeComps g pts, c.1.1 = g := by
  unfold edgeComps
  intro c hc
  rcases List.mem_flatten.mp hc with ⟨sub, hsub, hcsub⟩
  rcases List.mem_map.mp hsub with ⟨ie, _, hie⟩
  subst hie
  simp only [List.mem_cons, List.not_mem_nil, or_false] at hcsub
  rcases hcsub with rfl | rfl | rfl <;> rfl

/-- What one emitted row of extract_grasp_polygons_over_time looks like. -/
lemma extract_row_spec (df : List Sample) (r : FeatureRow)
    (h : r ∈ extract_grasp_polygons_over_time df) :
    r.timestamp ∈ sortKeys ((strippedDf df).map (·.timestamp)) ∧
    r.comps = processPolys (frameAt (strippedDf df) r.timestamp) polygons ∧
    r.comps ≠ [] := by
  unfold extract_grasp_polygons_over_time at h
  rcases List.mem_filterMap.mp h with ⟨p, hp, hfp⟩
  rcases List.mem_map.mp hp with ⟨t, ht, hpt⟩
  subst hpt
  dsimp only at hfp
  by_cases hc : (processPolys (frameAt (strippedDf df) t) polygons).isEmpty
  · rw [if_pos hc] at hfp
    exact absurd hfp (by simp)
  · rw [if_neg hc] at hfp
    injection hfp with hfp
    subst hfp
    exact ⟨ht, rfl, by simpa using hc⟩

/-- Conversely, a timestamp whose frame yields components produces a row. -/
lemma extract_row_intro (df : List Sample) (t : ℚ)
    (ht : t ∈ (strippedDf df).map (·.timestamp))
    (hc : processPolys (frameAt (strippedDf df) t) polygons ≠ []) :
    (⟨t, processPolys (frameAt (strippedDf df) t) polygons⟩ : FeatureRow) ∈
      extract_grasp_polygons_over_time df := by
  unfold extract_grasp_polygons_over_time
  refine List.mem_filterMap.mpr ⟨(t, frameAt (strippedDf df) t), ?_, ?_⟩
  · exact List.mem_map_of_mem _ ((mem_sortKeys_iff _ _).mpr ht)
  · dsimp only
    rw [if_neg (by simpa using hc)]

lemma groupPoints_head_lookup (frame : List Sample) (j : String)
    (rest : List String) (ps : List V3)
    (h : groupPoints frame (j :: rest) = some ps) :
    ∃ p, lookupJoint frame j = some p := by
  unfold groupPoints at h
  cases hl : lookupJoint frame j with
  | none => rw [hl] at h; exact absurd h (by simp)
  | some p => exact ⟨p, rfl⟩

lemma filterMap_ts_sublist (f : ℚ × List Sample → Option FeatureRow)
    (hf : ∀ p r, f p = some r → r.timestamp = p.1) :
    ∀ l : List (ℚ × List Sample),
      List.Sublist ((l.filterMap f).map (fun r => r.timestamp)) (l.map Prod.fst)
  | [] => by simp
  | p :: l => by
    cases hfp : f p with
    | none =>
      simp only [List.filterMap_cons, hfp, List.map_cons]
      exact (filterMap_ts_sublist f hf l).cons _
    | some r =>
      simp only [List.filterMap_cons, hfp, List.map_cons]
      rw [hf p r hfp]
      exact (filterMap_ts_sublist f hf l).cons₂ _

/-- C5: a timestamp missing a joint of the first-checked (tip) group
contributes no output row at all, and every emitted row has a non-empty
component list (a row holding only the timestamp is dropped). -/
theorem polygon_first_group_missing_drops_row (df : List Sample) (t : ℚ)
    (h : ∃ j ∈ tipJoints, lookupJoint (frameAt (strippedDf df) t) j = none) :
    (∀ r ∈ extract_grasp_polygons_over_time df, r.timestamp ≠ t) ∧
    (∀ r ∈ extract_grasp_polygons_over_time df, r.comps ≠ []) := by
  have hgp : groupPoints (frameAt (strippedDf df) t) tipJoints = none :=
    groupPoints_eq_none _ _ h
  constructor
  · intro r hr hrt
    rcases extract_row_spec df r hr with ⟨_, hcomps, hne⟩
    apply hne
    rw [hcomps, hrt]
    simp [processPolys, polygons, hgp]
  · intro r hr
    exact (extract_row_spec df r hr).2.2

/-- C5 witness: a frame missing R_LittleTip yields no row for its timestamp
and every emitted row of that stream is non-trivial. -/
theorem polygon_first_group_missing_drops_row_witness :
    (∃ j ∈ tipJoints, lookupJoint (frameAt (strippedDf intermOnlyDf) 0) j = none) ∧
    (∀ r ∈ extract_grasp_polygons_over_time intermOnlyDf, r.timestamp ≠ 0) ∧
    (∀ r ∈ extract_grasp_polygons_over_time intermOnlyDf, r.comps ≠ []) :=
  ⟨by decide, polygon_first_group_missing_drops_row intermOnlyDf 0 (by decide)⟩

/-- C10: the rows of extract_grasp_polygons_over_time are in strictly
increasing timestamp order for every input stream (pandas groupby sorts its
keys), hence sorted order rather than first-seen order. -/
theorem polygon_rows_sorted (df : List Sample) :
    List.Sorted (· < ·)
      ((extract_grasp_polygons_over_time df).map (fun r => r.timestamp)) := by
  unfold extract_grasp_polygons_over_time
  dsimp only
  have hf : ∀ (p : ℚ × List Sample) (r : FeatureRow),
      (let comps := processPolys p.2 polygons;
        if comps.isEmpty then none else some (⟨p.1, comps⟩ : FeatureRow)) = some r →
      r.timestamp = p.1 := by
    intro p r hfp
    dsimp only at hfp
    by_cases hc : (processPolys p.2 polygons).isEmpty
    · rw [if_pos hc] at hfp
      exact absurd hfp (by simp)
    · rw [if_neg hc] at hfp
      injection hfp with hfp
      rw [← hfp]
  have hsub := filterMap_ts_sublist _ hf (groupByTimestamp (strippedDf df))
  have hsorted : List.Sorted (· < ·)
      ((groupByTimestamp (strippedDf df)).map Prod.fst) := by
    unfold groupByTimestamp
    rw [List.map_map]
    have hid : (Prod.fst ∘ fun t => (t, frameAt (strippedDf df) t)) = id := rfl
    rw [hid, List.map_id]
    exact sortKeys_sorted ((strippedDf df).map (·.timestamp))
  exact hsorted.sublist hsub

/-- C1 counterexample: at timestamp 0 the intermediate group is missing
R_LittleIntermediate, yet the extractor does emit a row for that timestamp,
carrying the 15 components of the fully observed tip group. -/
theorem polygon_no_partial_emission_counterexample :
    (∃ j ∈ intermediateJoints,
      lookupJoint (frameAt (strippedDf tipOnlyDf) 0) j = none) ∧
    (extract_grasp_polygons_over_time tipOnlyDf).map
      (fun r => (r.timestamp, r.comps.length)) = [(0, 15)] ∧
    (extract_grasp_polygons_over_time tipOnlyDf).map
      (fun r => r.comps.all (fun c => c.1.1 == "tip")) = [true] :=
  ⟨by decide, by decide, by decide⟩

/-- C1 (amended): when a group is incomplete at a timestamp, that group and
all groups processed after it contribute nothing, but groups processed
before it keep their components: with tip complete and intermediate
incomplete, the row for the timestamp is still emitted and consists of
exactly the 15 tip components. -/
theorem polygon_prefix_emission (df : List Sample) (t : ℚ) (pts : List V3)
    (htip : groupPoints (frameAt (strippedDf df) t) tipJoints = some pts)
    (hint : ∃ j ∈ intermediateJoints,
      lookupJoint (frameAt (strippedDf df) t) j = none) :
    ∃ r ∈ extract_grasp_polygons_over_time df,
      r.timestamp = t ∧ r.comps = edgeComps "tip" pts ∧
      r.comps.length = 15 ∧ (∀ c ∈ r.comps, c.1.1 = "tip") := by
  have hgpi : groupPoints (frameAt (strippedDf df) t) intermediateJoints = none :=
    groupPoints_eq_none _ _ hint
  have hproc : processPolys (frameAt (strippedDf df) t) polygons =
      edgeComps "tip" pts := by
    simp [processPolys, polygons, htip, hgpi]
  have hlen : pts.length = 5 := by
    simpa [tipJoints] using groupPoints_length _ _ _ htip
  have hclen : (edgeComps "tip" pts).length = 15 := by
    rw [edgeComps_length, hlen]
  have hne : processPolys (frameAt (strippedDf df) t) polygons ≠ [] := by
    rw [hproc]
    intro hnil
    rw [hnil] at hclen
    simp at hclen
  obtain ⟨p, hp⟩ := groupPoints_head_lookup _ _ _ _ htip
  have ht : t ∈ (strippedDf df).map (·.timestamp) :=
    lookup_mem_timestamps (strippedDf df) t "R_ThumbTip" p hp
  refine ⟨⟨t, processPolys (frameAt (strippedDf df) t) polygons⟩,
    extract_row_intro df t ht hne, rfl, by rw [hproc], ?_, ?_⟩
  · rw [hproc]
    exact hclen
  · intro c hc
    rw [hproc] at hc
    exact edgeComps_group _ _ c hc

/-- C1 witness: the tip-only frame instantiates the amended statement. -/
theorem polygon_prefix_emission_witness :
    groupPoints (frameAt (strippedDf tipOnlyDf) 0) tipJoints =
      some [(0, 0, 0), (1, 0, 0), (1, 1, 0), (0, 1, 0), (0, 0, 1)] ∧
    (∃ j ∈ intermediateJoints,
      lookupJoint (frameAt (strippedDf tipOnlyDf) 0) j = none) ∧
    ∃ r ∈ extract_grasp_polygons_over_time tipOnlyDf,
      r.timestamp = 0 ∧
      r.comps = edgeComps "tip" [(0, 0, 0), (1, 0, 0), (1, 1, 0), (0, 1, 0), (0, 0, 1)] ∧
      r.comps.length = 15 ∧ (∀ c ∈ r.comps, c.1.1 = "tip") :=
  ⟨by decide, by decide, polygon_prefix_emission tipOnlyDf 0 _ (by decide) (by decide)⟩

/-- C4 counterexample: at timestamp 0 every joint of the intermediate group
is present, but because the tip group is incomplete the extractor emits
nothing at all for that timestamp, instead of the claimed 5 edge vectors for
the complete group. -/
theorem polygon_group_emission_counterexample :
    (∀ j ∈ intermediateJoints,
      (lookupJoint (frameAt (strippedDf intermOnlyDf) 0) j).isSome = true) ∧
    (∃ s ∈ strippedDf intermOnlyDf, s.timestamp = 0) ∧
    extract_grasp_polygons_over_time intermOnlyDf = [] :=
  ⟨by decide, by decide, by decide⟩

/-- C4 (amended): edge vectors of a closed polygon: for any non-empty point
list there are exactly as many edges as points, edge i is the difference of
the (i+1)-th and i-th vertices of the closed polygon, and the edges sum to
the zero vector; and when every joint of every configured group is present
at a timestamp, the emitted row carries the edge components of both groups,
3 * 5 scalar components per group. -/
theorem polygon_closed_edges :
    (∀ pts : List V3,
      (edgeVectors pts).length = pts.length ∧
      (pts ≠ [] → (edgeVectors pts).sum = 0) ∧
      (∀ i, i < pts.length →
        (edgeVectors pts).getD i 0 =
          vsub ((pts ++ [pts.headI]).getD (i + 1) 0)
            ((pts ++ [pts.headI]).getD i 0))) ∧
    (∀ (df : List Sample) (t : ℚ) (ptsT ptsI : List V3),
      groupPoints (frameAt (strippedDf df) t) tipJoints = some ptsT →
      groupPoints (frameAt (strippedDf df) t) intermediateJoints = some ptsI →
      ∃ r ∈ extract_grasp_polygons_over_time df,
        r.timestamp = t ∧
        r.comps = edgeComps "tip" ptsT ++ edgeComps "intermediate" ptsI ∧
        (edgeComps "tip" ptsT).length = 3 * 5 ∧
        (edgeComps "intermediate" ptsI).length = 3 * 5) := by
  constructor
  · intro pts
    refine ⟨edgeVectors_length pts, edgeVectors_sum pts, ?_⟩
    intro i hi
    cases pts with
    | nil => simp at hi
    | cons p rest =>
      unfold edgeVectors
      simp only [List.drop_succ_cons, List.drop_zero]
      rw [getD_zipWith vsub 0 0 0 _ _ i (by simpa using hi) hi]
      have h1 : ((p :: rest) ++ [(p :: rest).headI]).getD (i + 1) 0
          = (rest ++ [p]).getD i 0 := by
        rw [List.cons_append, List.getD_cons_succ]
        rfl
      have h2 : ((p :: rest) ++ [(p :: rest).headI]).getD i 0
          = (p :: rest).getD i 0 :=
        List.getD_append _ _ _ _ (by simpa using hi)
      rw [h1, h2]
  · intro df t ptsT ptsI hT hI
    have hproc : processPolys (frameAt (strippedDf df) t) polygons =
        edgeComps "tip" ptsT ++ edgeComps "intermediate" ptsI := by
      simp [processPolys, polygons, hT, hI]
    have hlT : ptsT.length = 5 := by
      simpa [tipJoints] using groupPoints_length _ _ _ hT
    have hlI : ptsI.length = 5 := by
      simpa [intermediateJoints] using groupPoints_length _ _ _ hI
    have hcT : (edgeComps "tip" ptsT).length = 3 * 5 := by
      rw [edgeComps_length, hlT]
    have hcI : (edgeComps "intermediate" ptsI).length = 3 * 5 := by
      rw [edgeComps_length, hlI]
    have hne : processPolys (frameAt (strippedDf df) t) polygons ≠ [] := by
      rw [hproc]
      intro hnil
      have := congrArg List.length hnil
      rw [List.length_append, hcT, hcI] at this
      simp at this
    obtain ⟨p, hp⟩ := groupPoints_head_lookup _ _ _ _ hT
    have ht : t ∈ (strippedDf df).map (·.timestamp) :=
      lookup_mem_timestamps (strippedDf df) t "R_ThumbTip" p hp
    exact ⟨⟨t, processPolys (frameAt (strippedDf df) t) polygons⟩,
      extract_row_intro df t ht hne, rfl, by rw [hproc], hcT, hcI⟩

/-- C4 witness: the closure and edge-count facts instantiated on a concrete
two-point polygon and on the fully observed frame. -/
theorem polygon_closed_edges_witness :
    (([((0 : ℚ), (0 : ℚ), (0 : ℚ)), ((1 : ℚ), (0 : ℚ), (0 : ℚ))] : List V3) ≠ []) ∧
    (edgeVectors [((0 : ℚ), (0 : ℚ), (0 : ℚ)), ((1 : ℚ), (0 : ℚ), (0 : ℚ))]).sum = 0 ∧
    groupPoints (frameAt (strippedDf fullFrameDf) 0) tipJoints =
      some [(0, 0, 0), (1, 0, 0), (1, 1, 0), (0, 1, 0), (0, 0, 1)] ∧
    groupPoints (frameAt (strippedDf fullFrameDf) 0) intermediateJoints =
      some [(2, 0, 0), (3, 0, 0), (3, 1, 0), (2, 1, 0), (2, 0, 1)] ∧
    ∃ r ∈ extract_grasp_polygons_over_time fullFrameDf,
      r.timestamp = 0 ∧
      r.comps = edgeComps "tip" [(0, 0, 0), (1, 0, 0), (1, 1, 0), (0, 1, 0), (0, 0, 1)] ++
        edgeComps "intermediate" [(2, 0, 0), (3, 0, 0), (3, 1, 0), (2, 1, 0), (2, 0, 1)] ∧
      (edgeComps "tip"
        [(0, 0, 0), (1, 0, 0), (1, 1, 0), (0, 1, 0), (0, 0, 1)]).length = 3 * 5 ∧
      (edgeComps "intermediate"
        [(2, 0, 0), (3, 0, 0), (3, 1, 0), (2, 1, 0), (2, 0, 1)]).length = 3 * 5 :=
  ⟨by decide, (polygon_closed_edges.1 _).2.1 (by decide), by decide, by decide,
    polygon_closed_edges.2 fullFrameDf 0 _ _ (by decide) (by decide)⟩

/-! ## Segmenter lemmas and theorems -/

/-- A user folder realising Scenario B: one event row config3 with window
[10, 12], and a transform log with samples at 12.4 and 12.6 (written 62/5
and 63/5). -/
def trialDemoFolder : UserFolder where
  fileNames := ["User0_EventLogFile_1.csv", "User0_TransformLog_Box_Grasp_config3.csv"]
  eventRows := fun f =>
    if f = "User0_EventLogFile_1.csv" then [⟨"config3", 10, 12⟩] else []
  samples := fun f =>
    if f = "User0_TransformLog_Box_Grasp_config3.csv" then
      [mkSample (62/5) "R_ThumbTip" 0 0 0, mkSample (63/5) "R_ThumbTip" 0 0 0]
    else []

/-- The per-row loop unrolled: outputs are the config rows with a matching
transform file, warnings the rows without, both in event order. -/
lemma segmentLoop_spec (folder : UserFolder) (buffer : ℚ) :
    ∀ rows : List EventRow,
      segmentLoop folder buffer rows =
        (rows.filterMap (fun r =>
          (folder.fileNames.find? (matchesTransformPat r.name)).map
            (fun tf => (tf, cropStream (folder.samples tf) r.startTime r.endTime buffer))),
         (rows.filter (fun r =>
            (folder.fileNames.find? (matchesTransformPat r.name)).isNone)).map
           (fun r => "Warning: Transform log for " ++ r.name ++ " not found."))
  | [] => rfl
  | r :: rest => by
    unfold segmentLoop
    rw [segmentLoop_spec folder buffer rest]
    cases hf : folder.fileNames.find? (matchesTransformPat r.name) with
    | none => simp [List.filterMap_cons, hf, List.filter_cons]
    | some tf => simp [List.filterMap_cons, hf, List.filter_cons]

/-- C2: a sample survives the crop iff its timestamp lies in the inclusive
window [start, end+buffer]; the crop preserves the original order; and in
Scenario B (window [10, 12], buffer 0.5) the sample at 12.4 is kept while
the one at 12.6 is dropped. -/
theorem segment_window_inclusive :
    (∀ (samples : List Sample) (startT endT buffer : ℚ) (s : Sample),
      s ∈ cropStream samples startT endT buffer ↔
        s ∈ samples ∧ startT ≤ s.timestamp ∧ s.timestamp ≤ endT + buffer) ∧
    (∀ (samples : List Sample) (startT endT buffer : ℚ),
      List.Sublist (cropStream samples startT endT buffer) samples) ∧
    extract_config_segments trialDemoFolder (1/2) =
      .ok ([("User0_TransformLog_Box_Grasp_config3.csv",
        [mkSample (62/5) "R_ThumbTip" 0 0 0])], []) := by
  refine ⟨?_, ?_, ?_⟩
  · intro samples startT endT buffer s
    unfold cropStream
    rw [List.mem_filter]
    simp
  · intro samples startT endT buffer
    exact List.filter_sublist _
  · have hev : trialDemoFolder.fileNames.find? isEventFile =
        some "User0_EventLogFile_1.csv" := by decide
    unfold extract_config_segments
    rw [hev]
    dsimp only
    have hrows : (trialDemoFolder.eventRows "User0_EventLogFile_1.csv").filter
        (fun r => matchesConfigPat r.name) = [⟨"config3", 10, 12⟩] := by decide
    rw [hrows, segmentLoop_spec]
    have htf : trialDemoFolder.fileNames.find? (matchesTransformPat "config3") =
        some "User0_TransformLog_Box_Grasp_config3.csv" := by decide
    have hcrop : cropStream
        (trialDemoFolder.samples "User0_TransformLog_Box_Grasp_config3.csv")
        10 12 (2⁻¹ : ℚ) = [mkSample (62/5) "R_ThumbTip" 0 0 0] := by
      show cropStream [mkSample (62/5) "R_ThumbTip" 0 0 0,
        mkSample (63/5) "R_ThumbTip" 0 0 0] 10 12 (2⁻¹ : ℚ) = _
      unfold cropStream
      rw [List.filter_cons, List.filter_cons, List.filter_nil]
      rw [if_pos (by unfold mkSample; norm_num), if_neg (by unfold mkSample; norm_num)]
    simp [htf, hcrop]

/-- C8 demo folder: event log present, config1 has a transform log, config2
does not. -/
def warnDemoFolder : UserFolder where
  fileNames := ["U_EventLogFile.csv", "A_config1.csv"]
  eventRows := fun f =>
    if f = "U_EventLogFile.csv" then [⟨"config1", 0, 1⟩, ⟨"config2", 0, 1⟩] else []
  samples := fun f =>
    if f = "A_config1.csv" then [mkSample 0 "J" 0 0 0, mkSample 5 "J" 0 0 0] else []

/-- C8: segmentation fails fatally iff the event-log file is absent from the
folder; when it is present, every config row with a matching transform log
is cropped and saved, and every config row without one only adds a warning,
so remaining trials are still processed. -/
theorem segmenter_fatal_iff_event_absent (folder : UserFolder) (buffer : ℚ) :
    ((∃ e, extract_config_segments folder buffer = .error e) ↔
      folder.fileNames.find? isEventFile = none) ∧
    (∀ ef, folder.fileNames.find? isEventFile = some ef →
      extract_config_segments folder buffer =
        .ok ((((folder.eventRows ef).filter (fun r => matchesConfigPat r.name)).filterMap
            (fun r => (folder.fileNames.find? (matchesTransformPat r.name)).map
              (fun tf =>
                (tf, cropStream (folder.samples tf) r.startTime r.endTime buffer))),
          ((((folder.eventRows ef).filter (fun r => matchesConfigPat r.name)).filter
              (fun r => (folder.fileNames.find? (matchesTransformPat r.name)).isNone)).map
            (fun r => "Warning: Transform log for " ++ r.name ++ " not found."))))) := by
  cases hf : folder.fileNames.find? isEventFile with
  | none =>
    refine ⟨⟨fun _ => rfl, fun _ => ⟨_, by unfold extract_config_segments; rw [hf]⟩⟩, ?_⟩
    intro ef hef
    exact absurd hef (by simp)
  | some ef0 =>
    constructor
    · constructor
      · rintro ⟨e, he⟩
        unfold extract_config_segments at he
        rw [hf] at he
        exact absurd he (by simp)
      · intro h
        exact absurd h (by simp)
    · intro ef hef
      injection hef with hef
      subst hef
      unfold extract_config_segments
      rw [hf]
      dsimp only
      rw [segmentLoop_spec]

/-- C8 witness: in the demo folder the run does not abort; config1 is
cropped and config2 only produces a warning. -/
theorem segmenter_fatal_iff_event_absent_witness :
    warnDemoFolder.fileNames.find? isEventFile = some "U_EventLogFile.csv" ∧
    (¬∃ e, extract_config_segments warnDemoFolder 1 = .error e) ∧
    extract_config_segments warnDemoFolder 1 =
      .ok ([("A_config1.csv", [mkSample 0 "J" 0 0 0])],
        ["Warning: Transform log for config2 not found."]) := by
  have hf : warnDemoFolder.fileNames.find? isEventFile = some "U_EventLogFile.csv" := by
    decide
  have h := (segmenter_fatal_iff_event_absent warnDemoFolder 1).2 "U_EventLogFile.csv" hf
  refine ⟨hf, ?_, ?_⟩
  · rw [(segmenter_fatal_iff_event_absent warnDemoFolder 1).1, hf]
    simp
  · rw [h]
    have hrows : (warnDemoFolder.eventRows "U_EventLogFile.csv").filter
        (fun r => matchesConfigPat r.name) =
        [⟨"config1", 0, 1⟩, ⟨"config2", 0, 1⟩] := by decide
    have hf1 : warnDemoFolder.fileNames.find? (matchesTransformPat "config1") =
        some "A_config1.csv" := by decide
    have hf2 : warnDemoFolder.fileNames.find? (matchesTransformPat "config2") =
        none := by decide
    have hcrop : cropStream (warnDemoFolder.samples "A_config1.csv") 0 1 1 =
        [mkSample 0 "J" 0 0 0] := by
      show cropStream [mkSample 0 "J" 0 0 0, mkSample 5 "J" 0 0 0] 0 1 1 = _
      unfold cropStream
      rw [List.filter_cons, List.filter_cons, List.filter_nil]
      rw [if_pos (by unfold mkSample; norm_num),
        if_neg (by unfold mkSample; norm_num)]
    simp [hrows, hf1, hf2, hcrop]

/-! ## Aggregator lemmas and theorems -/

/-- The folder for the aggregation witness: one csv (Scenario C filename)
and one non-csv file that must be skipped. -/
def aggDemoFolder : List (String × List Sample) :=
  [("User0_TransformLog_BigCube_Grasp_config19.csv", scenarioA), ("notes.txt", [])]

/-- The per-file loop unrolled: when every extraction succeeds the result is
the in-order concatenation of the labelled per-file tables. -/
lemma aggregateFiles_spec (j1 j2 : String) :
    ∀ l : List (String × List Sample),
      (∀ f ∈ l, (extract_grasp_aperture f.2 j1 j2).isSome = true) →
      aggregateFiles j1 j2 l =
        some ((l.map (fun f => ((extract_grasp_aperture f.2 j1 j2).getD []).map
          (fun r => LabeledRow.mk r.1 r.2 (parse_object_name f.1) f.1))).flatten)
  | [], _ => rfl
  | (fname, data) :: rest, h => by
    have h1 : (extract_grasp_aperture data j1 j2).isSome = true :=
      h (fname, data) (by simp)
    obtain ⟨rows, hrows⟩ := Option.isSome_iff_exists.mp h1
    unfold aggregateFiles
    rw [hrows,
      aggregateFiles_spec j1 j2 rest (fun f hf => h f (List.mem_cons_of_mem _ hf))]
    simp [hrows]

/-- C9: when the csv list is non-empty and every per-stream extraction
succeeds, the aggregated table is the in-order concatenation of the
per-stream tables, its row count is the sum of the per-stream row counts,
and every row carries its own stream's ConfigFile name and parsed Object
label. -/
theorem aggregate_labels (folder : List (String × List Sample)) (j1 j2 : String)
    (hne : folder.filter (fun f => strEndsWith ".csv" f.1) ≠ [])
    (hok : ∀ f ∈ folder.filter (fun f => strEndsWith ".csv" f.1),
      (extract_grasp_aperture f.2 j1 j2).isSome = true) :
    load_and_extract_apertures folder j1 j2 =
      some (((folder.filter (fun f => strEndsWith ".csv" f.1)).map
        (fun f => ((extract_grasp_aperture f.2 j1 j2).getD []).map
          (fun r => LabeledRow.mk r.1 r.2 (parse_object_name f.1) f.1))).flatten) ∧
    (∀ rows, load_and_extract_apertures folder j1 j2 = some rows →
      rows.length = ((folder.filter (fun f => strEndsWith ".csv" f.1)).map
        (fun f => ((extract_grasp_aperture f.2 j1 j2).getD []).length)).sum ∧
      ∀ r ∈ rows, ∃ f ∈ folder.filter (fun f => strEndsWith ".csv" f.1),
        r.configFile = f.1 ∧ r.object = parse_object_name f.1) := by
  have hmain : load_and_extract_apertures folder j1 j2 =
      some (((folder.filter (fun f => strEndsWith ".csv" f.1)).map
        (fun f => ((extract_grasp_aperture f.2 j1 j2).getD []).map
          (fun r => LabeledRow.mk r.1 r.2 (parse_object_name f.1) f.1))).flatten) := by
    unfold load_and_extract_apertures
    rw [if_neg (by simpa [List.isEmpty_iff] using hne)]
    exact aggregateFiles_spec j1 j2 _ hok
  refine ⟨hmain, ?_⟩
  intro rows hr
  rw [hmain] at hr
  injection hr with hr
  subst hr
  constructor
  · have hfun : (List.length ∘ fun f : String × List Sample =>
        ((extract_grasp_aperture f.2 j1 j2).getD []).map
          (fun r => LabeledRow.mk r.1 r.2 (parse_object_name f.1) f.1)) =
        fun f => ((extract_grasp_aperture f.2 j1 j2).getD []).length := by
      funext f
      simp [Function.comp, List.length_map]
    simp only [List.length_flatten, List.map_map, hfun]
  · intro r hrr
    rcases List.mem_flatten.mp hrr with ⟨sub, hsub, hrsub⟩
    rcases List.mem_map.mp hsub with ⟨f, hf, rfl⟩
    rcases List.mem_map.mp hrsub with ⟨rr, _, rfl⟩
    exact ⟨f, hf, rfl, rfl⟩

/-- C9 witness: the demo folder aggregates to one row labelled BigCube with
the Scenario C file name (and the non-csv file is skipped). -/
theorem aggregate_labels_witness :
    (aggDemoFolder.filter (fun f => strEndsWith ".csv" f.1) ≠ []) ∧
    (∀ f ∈ aggDemoFolder.filter (fun f => strEndsWith ".csv" f.1),
      (extract_grasp_aperture f.2 "R_ThumbTip" "R_IndexTip").isSome = true) ∧
    parse_object_name "User0_TransformLog_BigCube_Grasp_config19.csv" = "BigCube" ∧
    (∀ rows, load_and_extract_apertures aggDemoFolder "R_ThumbTip" "R_IndexTip" =
        some rows →
      rows.length = 1 ∧
      ∀ r ∈ rows, r.object = "BigCube" ∧
        r.configFile = "User0_TransformLog_BigCube_Grasp_config19.csv") := by
  have hne : aggDemoFolder.filter (fun f => strEndsWith ".csv" f.1) ≠ [] := by decide
  have hok : ∀ f ∈ aggDemoFolder.filter (fun f => strEndsWith ".csv" f.1),
      (extract_grasp_aperture f.2 "R_ThumbTip" "R_IndexTip").isSome = true := by
    decide
  have hfil : aggDemoFolder.filter (fun f => strEndsWith ".csv" f.1) =
      [("User0_TransformLog_BigCube_Grasp_config19.csv", scenarioA)] := by decide
  refine ⟨hne, hok, by decide, ?_⟩
  intro rows hr
  have h := (aggregate_labels aggDemoFolder "R_ThumbTip" "R_IndexTip" hne hok).2 rows hr
  constructor
  · rw [h.1, hfil]
    have hext := extract_grasp_aperture_of_length_eq scenarioA "R_ThumbTip" "R_IndexTip"
      (by decide)
    rw [List.map_cons, List.map_nil, hext]
    have e1 : jointRows scenarioA "R_ThumbTip" = [mkSample 1 "R_ThumbTip" 0 0 0] := by
      decide
    have e2 : jointRows scenarioA "R_IndexTip" = [mkSample 1 "R_IndexTip" 3 4 0] := by
      decide
    rw [e1, e2]
    rfl
  · intro r hrr
    rcases h.2 r hrr with ⟨f, hf, hcf, hob⟩
    rw [hfil] at hf
    have hfe : f = ("User0_TransformLog_BigCube_Grasp_config19.csv", scenarioA) := by
      simpa using hf
    subst hfe
    refine ⟨?_, hcf⟩
    rw [hob]
    decide

end VrGrasp
